import Mathlib

/-!
Verification development for the audio-features service
(`app/core/config.py`, `app/core/audio_utils.py`).

The Python source is shallowly embedded: pure functions become Lean
functions over exact arithmetic (`ℚ`, and `ℝ` where the source takes
logarithms/square roots), Python `dict`s become association lists,
Python `None` becomes `Option.none`, and code that raises becomes
`Option`/`Except` results.
-/

/-- First-match association-list lookup, modelling Python `dict.get`
(the dictionaries embedded here are built with distinct keys, so
first-match agrees with the real `dict`). -/
def lookupD {α β : Type} [DecidableEq α] : List (α × β) → α → Option β
  | [], _ => none
  | p :: t, k => if p.1 = k then some p.2 else lookupD t k

/-- Python `dict` insertion: replace in place if the key exists, else append. -/
def dictInsert {α β : Type} [DecidableEq α] (d : List (α × β)) (k : α) (v : β) :
    List (α × β) :=
  if d.any (fun p => p.1 = k) then
    d.map (fun p => if p.1 = k then (k, v) else p)
  else d ++ [(k, v)]

/-! ## `app/core/config.py` -/

/-- Constant `TARGET_SR = 22050` from `config.py`. -/
def TARGET_SR : ℕ := 22050

/-- Constant `CAMELOT_TABLE` from `config.py`: the fixed 24-entry Camelot
wheel map. -/
def CAMELOT_TABLE : List (String × String) :=
  [("C major", "8B"), ("G major", "9B"), ("D major", "10B"), ("A major", "11B"),
   ("E major", "12B"), ("B major", "1B"), ("F# major", "2B"), ("C# major", "3B"),
   ("F major", "7B"), ("Bb major", "6B"), ("Eb major", "5B"), ("Ab major", "4B"),
   ("A minor", "8A"), ("E minor", "9A"), ("B minor", "10A"), ("F# minor", "11A"),
   ("C# minor", "12A"), ("G# minor", "1A"), ("D# minor", "2A"), ("A# minor", "3A"),
   ("D minor", "7A"), ("G minor", "6A"), ("C minor", "5A"), ("F minor", "4A")]

/-- Constant `KEY_TO_NUMBER` from `config.py`, in source (insertion) order. -/
def KEY_TO_NUMBER : List (String × ℕ) :=
  [("C", 0), ("C#", 1), ("Db", 1), ("D", 2), ("D#", 3), ("Eb", 3), ("E", 4),
   ("F", 5), ("F#", 6), ("Gb", 6), ("G", 7), ("G#", 8), ("Ab", 8), ("A", 9),
   ("A#", 10), ("Bb", 10), ("B", 11)]

/-- Constant `NUMBER_TO_KEY_SHARP` from `config.py`:
`{v: k for k, v in KEY_TO_NUMBER.items() if len(k) == 1 or "#" in k}`, a dict
comprehension, i.e. a left fold of dict insertions over the filtered items
(`"#" in k`, a one-character substring test, is membership of `'#'` among
the characters of `k`). -/
def NUMBER_TO_KEY_SHARP : List (ℕ × String) :=
  (KEY_TO_NUMBER.filter (fun p => p.1.length == 1 || p.1.toList.contains '#')).foldl
    (fun d p => dictInsert d p.2 p.1) []

/-! ## `audio_utils._guess_ext_from_magic` -/

/-- Python `bytes.startswith`: `pat` is an initial segment of `b`. -/
def bytesStartWith : List ℕ → List ℕ → Bool
  | [], _ => true
  | _ :: _, [] => false
  | p :: ps, b :: bs => p == b && bytesStartWith ps bs

/-- Python `pat in b` on bytes: `pat` occurs contiguously in `b`. -/
def bytesHasInfix (pat : List ℕ) : List ℕ → Bool
  | [] => bytesStartWith pat []
  | b :: bs => bytesStartWith pat (b :: bs) || bytesHasInfix pat bs

/-- Byte literal `b"ID3"`. -/
def ID3SIG : List ℕ := [73, 68, 51]

/-- Byte literal `b"ftyp"`. -/
def FTYPSIG : List ℕ := [102, 116, 121, 112]

/-- The MP3 signature test of `_guess_ext_from_magic`:
`head.startswith(b"ID3") or head[:2] == b"\xff\xfb" or head[:2] == b"\xff\xf3"
 or head[:2] == b"\xff\xf2"` (on `head = b[:16]`). -/
def mp3Sig (head : List ℕ) : Bool :=
  bytesStartWith ID3SIG head || head.take 2 == [255, 251] ||
    head.take 2 == [255, 243] || head.take 2 == [255, 242]

/-- Function `_guess_ext_from_magic` from `audio_utils.py`. -/
def guess_ext_from_magic (b : List ℕ) : String :=
  let head := b.take 16
  if mp3Sig head then ".mp3"
  else if bytesHasInfix FTYPSIG head then ".m4a"
  else ".mp3"

/-! ## `audio_utils.to_camelot` -/

/-- Function `to_camelot` from `audio_utils.py`. `if not key_name or not
mode_name` is Python truthiness: both `None` and the empty string
short-circuit to `None`. -/
def to_camelot (key_name mode_name : Option String) : Option String :=
  match key_name, mode_name with
  | some kn, some mn =>
      if kn = "" ∨ mn = "" then none
      else lookupD CAMELOT_TABLE (kn ++ " " ++ mn)
  | _, _ => none

/-! ## `audio_utils.compute_duration_ms` -/

/-- Python built-in `round` on an exact value: round half to even. -/
def pyRound (q : ℚ) : ℤ :=
  let f : ℤ := ⌊q⌋
  let r : ℚ := q - f
  if r < 1/2 then f
  else if 1/2 < r then f + 1
  else if f % 2 = 0 then f else f + 1

/-- Function `compute_duration_ms(y, sr) = int(round(len(y) / sr * 1000.0))`
from `audio_utils.py`. -/
def compute_duration_ms (y : List ℚ) (sr : ℕ) : ℤ :=
  pyRound ((y.length : ℚ) / (sr : ℚ) * 1000)

/-! ## `audio_utils.compute_energy` -/

/-- Mean of a list of reals (`np.mean`; 0 on the empty list). -/
noncomputable def meanR (l : List ℝ) : ℝ := l.sum / l.length

/-- The quantity `rms = sqrt(mean(square(y))) + 1e-12` from `compute_energy`. -/
noncomputable def rmsOf (y : List ℝ) : ℝ :=
  Real.sqrt (meanR (y.map (fun v => v ^ 2))) + 1/1000000000000

/-- The quantity `db = 20.0 * log10(rms)` from `compute_energy`. -/
noncomputable def dbOf (y : List ℝ) : ℝ := 20 * Real.logb 10 (rmsOf y)

/-- Function `compute_energy` from `audio_utils.py`:
`np.clip((db + 60.0) / 60.0, 0.0, 1.0)`. -/
noncomputable def compute_energy (y : List ℝ) : ℝ :=
  max 0 (min 1 ((dbOf y + 60) / 60))

/-! ## `audio_utils.load_audio_from_bytes` -/

/-- Result of the primary decode (`soundfile.sf.read` with `always_2d=False`):
a mono sample list, or a frame-major matrix for multi-channel input. -/
inductive SfOut : Type
  | mono (y : List ℚ)
  | multi (rows : List (List ℚ))

/-- Mean of a list of rationals (`np.mean`; 0 on the empty list). -/
def meanQ (l : List ℚ) : ℚ := l.sum / l.length

/-- The step `if y.ndim > 1: y = np.mean(y, axis=1)` — collapse channels per
frame. -/
def collapseMono : SfOut → List ℚ
  | .mono y => y
  | .multi rows => rows.map meanQ

/-- Function `load_audio_from_bytes` from `audio_utils.py`, with the two
decoders and the resampler abstracted as oracles: `dec` is the `soundfile`
path (`none` = raised), `fb` is the temp-file/`librosa.load` fallback
(`none` = raised, which propagates), and `resample` models
`librosa.resample y orig_sr target_sr`. After decoding, a stream whose rate
differs from the target is resampled and tagged with the target rate. -/
def load_audio_from_bytes (dec : Option (SfOut × ℕ)) (fb : Option (List ℚ × ℕ))
    (resample : List ℚ → ℕ → ℕ → List ℚ) (target_sr : ℕ) : Option (List ℚ × ℕ) :=
  let decoded : Option (List ℚ × ℕ) :=
    match dec with
    | some (out, sr) => some (collapseMono out, sr)
    | none => fb
  match decoded with
  | none => none
  | some (y, sr) =>
      if sr ≠ target_sr then some (resample y sr target_sr, target_sr)
      else some (y, sr)

/-! ## `audio_utils.estimate_key_mode_krumhansl` -/

/-- Profile `_KRUMHANSL_MAJOR` from `audio_utils.py`. -/
def KRUMHANSL_MAJOR : List ℚ :=
  [635/100, 223/100, 348/100, 233/100, 438/100, 409/100,
   252/100, 519/100, 239/100, 366/100, 229/100, 288/100]

/-- Profile `_KRUMHANSL_MINOR` from `audio_utils.py`. -/
def KRUMHANSL_MINOR : List ℚ :=
  [633/100, 268/100, 352/100, 538/100, 260/100, 353/100,
   254/100, 475/100, 398/100, 269/100, 334/100, 317/100]

/-- Dot product `np.dot` on equal-length vectors. -/
def dotQ (a b : List ℚ) : ℚ := (List.zipWith (· * ·) a b).sum

/-- Rotation `np.roll(p, k)`: rotate right by `k` (for `p` of length 12,
`k ≤ 12`). -/
def nproll (p : List ℚ) (k : ℕ) : List ℚ :=
  p.drop (p.length - k) ++ p.take (p.length - k)

/-- Maximum `l.max()` of a nonempty array (0 on the empty list, which
`numpy` rejects). -/
def maxOf : List ℚ → ℚ
  | [] => 0
  | x :: xs => xs.foldl max x

/-- Index `np.argmax`: first occurrence of the maximum (0 on `[]`). -/
def argmaxFirst : List ℚ → ℕ
  | [] => 0
  | x :: xs => if xs.all (fun y => y ≤ x) then 0 else 1 + argmaxFirst xs

/-- Normalisation `pc = pc / (pc.max() + 1e-9)` — the salience vector
divided by its maximum (plus the source's guard epsilon). -/
def salNorm (pc : List ℚ) : List ℚ :=
  pc.map (fun v => v / (maxOf pc + 1/1000000000))

/-- The list `scores = [np.dot(pc, np.roll(profile, k)) for k in range(12)]`
inside `best_rotation`. -/
def rotScores (pc profile : List ℚ) : List ℚ :=
  (List.range 12).map (fun k => dotQ (salNorm pc) (nproll profile k))

/-- Closure `best_rotation(profile)`: the argmax rotation index and its
score. -/
def bestRotation (pc profile : List ℚ) : ℕ × ℚ :=
  let s := rotScores pc profile
  (argmaxFirst s, s.getD (argmaxFirst s) 0)

/-- A component of the estimator's Python return tuple. -/
inductive KMField : Type
  | num (k : ℕ)
  | name (s : String)
deriving DecidableEq

/-- Function `estimate_key_mode_krumhansl` from `audio_utils.py`, as a
function of the time-averaged 12-bin chroma vector `pc` (the chroma
computation itself is `librosa`, an external collaborator). The return value
models the Python tuple as a list of optional fields, because the source
returns tuples of two different arities: `(None, None)` when `pc` is
entirely zero, and otherwise a triple. A failed key-name lookup would be
caught by the `except` branch, which returns `(None, None, None)`. -/
def estimate_key_mode_krumhansl (pc : List ℚ) : List (Option KMField) :=
  if pc.all (fun v => v == 0) then [none, none]
  else
    let maj := bestRotation pc KRUMHANSL_MAJOR
    let mnr := bestRotation pc KRUMHANSL_MINOR
    let keyAndMode : ℕ × String :=
      if mnr.2 ≤ maj.2 then (maj.1, "major") else (mnr.1, "minor")
    match lookupD NUMBER_TO_KEY_SHARP keyAndMode.1 with
    | some nm => [some (.num keyAndMode.1), some (.name nm), some (.name keyAndMode.2)]
    | none => [none, none, none]

/-- A salience vector whose Krumhansl winner is pitch class 10 (A♯) major. -/
def PC_ASHARP : List ℚ := [0, 0, 0, 0, 0, 0, 0, 0, 0, 0, 1, 0]

/-! ## `audio_utils.to_spotify_like` and the orchestrator payloads -/

/-- A Python value stored in a feature mapping: JSON-like, with `null`. -/
inductive PyVal : Type
  | null
  | int (n : ℤ)
  | num (q : ℚ)
  | str (s : String)
  | strList (l : List String)
deriving DecidableEq

/-- Python `d.get(k)`: `None` (here `PyVal.null`) when the key is missing. -/
def dictGet (d : List (String × PyVal)) (k : String) : PyVal :=
  (lookupD d k).getD PyVal.null

/-- Python `d.get(k, dflt)`. -/
def dictGetD (d : List (String × PyVal)) (k : String) (dflt : PyVal) : PyVal :=
  (lookupD d k).getD dflt

/-- Function `to_spotify_like` from `audio_utils.py`: the dict literal, key
for key in source order, with the constant `"type"` discriminator and the
`analysis_notes` default of `[]`. -/
def to_spotify_like (payload : List (String × PyVal)) : List (String × PyVal) :=
  [("acousticness", dictGet payload "acousticness"),
   ("danceability", dictGet payload "danceability"),
   ("duration_ms", dictGet payload "duration_ms"),
   ("energy", dictGet payload "energy"),
   ("instrumentalness", dictGet payload "instrumentalness"),
   ("key", dictGet payload "key_number"),
   ("liveness", dictGet payload "liveness"),
   ("loudness", dictGet payload "loudness_db"),
   ("mode", dictGet payload "mode_bit"),
   ("speechiness", dictGet payload "speechiness"),
   ("spotify_id", dictGet payload "spotify_id"),
   ("tempo", dictGet payload "tempo"),
   ("time_signature", dictGet payload "time_signature"),
   ("type", PyVal.str "audio_features"),
   ("valence", dictGet payload "valence"),
   ("key_name", dictGet payload "key_name"),
   ("mode_name", dictGet payload "mode_name"),
   ("camelot", dictGet payload "camelot"),
   ("analysis_notes", dictGetD payload "analysis_notes" (PyVal.strList []))]

/-- An optional string as a Python value (`None` ↦ `null`). -/
def optStr : Option String → PyVal
  | none => PyVal.null
  | some s => PyVal.str s

/-- An optional key number as a Python value. -/
def optNum : Option ℕ → PyVal
  | none => PyVal.null
  | some k => PyVal.int k

/-- The expression
`1 if mode_name == "major" else (0 if mode_name == "minor" else None)`. -/
def modeBit : Option String → PyVal
  | some "major" => PyVal.int 1
  | some "minor" => PyVal.int 0
  | _ => PyVal.null

/-- The `payload` dict built by `analyze_audio_from_url` (lines 187–219),
given the computed features. `classify_with_models` returns the empty dict,
so every `ml.get(...)` entry is `None`; `"time_signature"` is the literal
`None`. -/
def payload_from_url (spid : Option String) (duration_ms : ℤ)
    (tempo loudness_db energy : ℚ) (key_number : Option ℕ)
    (key_name mode_name camelot : Option String) (notes : List String) :
    List (String × PyVal) :=
  [("spotify_id", optStr spid),
   ("duration_ms", PyVal.int duration_ms),
   ("tempo", PyVal.num tempo),
   ("loudness_db", PyVal.num loudness_db),
   ("energy", PyVal.num energy),
   ("key_name", optStr key_name),
   ("camelot", optStr camelot),
   ("key_number", optNum key_number),
   ("mode_bit", modeBit mode_name),
   ("mode_name", optStr mode_name),
   ("time_signature", PyVal.null),
   ("analysis_notes", PyVal.strList notes),
   ("danceability", PyVal.null),
   ("valence", PyVal.null),
   ("acousticness", PyVal.null),
   ("instrumentalness", PyVal.null),
   ("speechiness", PyVal.null),
   ("liveness", PyVal.null)]

/-- The `payload` dict built by `analyze_audio_from_upload` (lines 234–255). -/
def payload_from_upload (duration_ms : ℤ) (tempo loudness_db energy : ℚ)
    (key_number : Option ℕ) (key_name mode_name camelot : Option String) :
    List (String × PyVal) :=
  [("id", PyVal.null),
   ("duration_ms", PyVal.int duration_ms),
   ("tempo", PyVal.num tempo),
   ("loudness_db", PyVal.num loudness_db),
   ("energy", PyVal.num energy),
   ("key_name", optStr key_name),
   ("camelot", optStr camelot),
   ("key_number", optNum key_number),
   ("mode_bit", modeBit mode_name),
   ("mode_name", optStr mode_name),
   ("time_signature", PyVal.null),
   ("analysis_notes", PyVal.strList ["Analyzed uploaded audio file."]),
   ("danceability", PyVal.null),
   ("valence", PyVal.null),
   ("acousticness", PyVal.null),
   ("instrumentalness", PyVal.null),
   ("speechiness", PyVal.null),
   ("liveness", PyVal.null)]

/-- The 19 field names of the documented response schema, in schema order. -/
def SPEC_FIELDS : List String :=
  ["acousticness", "danceability", "duration_ms", "energy", "instrumentalness",
   "key", "liveness", "loudness", "mode", "speechiness", "spotify_id", "tempo",
   "time_signature", "type", "valence", "key_name", "mode_name", "camelot",
   "analysis_notes"]

/-! ## `analyze_audio_from_url`: audio-source selection -/

/-- A preview-catalog result (`resolve_deezer_preview` / `resolve_apple_preview`
return `None` or a non-empty dict). -/
structure Preview : Type where
  preview_url : String
  source : String
deriving DecidableEq

/-- Python truthiness of an optional string (`None` and `""` are falsy). -/
def pyTruthyStr : Option String → Bool
  | none => false
  | some s => s ≠ ""

/-- The preview-resolution chain of `analyze_audio_from_url` (lines 179–185):
Deezer first, then Apple; if both return no preview the request is aborted
with `HTTPException(status_code=404)`. On success it yields the URL fetched
and the note appended. -/
def resolvePreviews (deezer apple : Option Preview) : Except ℕ (String × String) :=
  match deezer with
  | some p => .ok (p.preview_url, "Fetched preview from " ++ p.source ++ ".")
  | none =>
      match apple with
      | some p => .ok (p.preview_url, "Fetched preview from " ++ p.source ++ ".")
      | none => .error 404

/-- The audio-source selection step of `analyze_audio_from_url`
(lines 174–185): `if q.audio_url:` — a truthy (non-`None`, non-empty)
direct URL is fetched; otherwise the preview-resolution chain runs. -/
def choose_audio_source (audio_url : Option String)
    (deezer apple : Option Preview) : Except ℕ (String × String) :=
  match audio_url with
  | some u =>
      if u = "" then resolvePreviews deezer apple
      else .ok (u, "Used provided audio_url.")
  | none => resolvePreviews deezer apple

/-! ## Helper lemmas -/

/-- A successful lookup finds an actual entry of the table. -/
theorem lookupD_mem {α β : Type} [DecidableEq α] (l : List (α × β)) (k : α) (c : β)
    (h : lookupD l k = some c) : (k, c) ∈ l := by
  induction l with
  | nil => simp [lookupD] at h
  | cons p t ih =>
    rw [lookupD] at h
    split at h
    · next heq =>
      cases h
      subst heq
      simp
    · exact List.mem_cons_of_mem _ (ih h)

/-- The argmax of a nonempty list is a valid index. -/
theorem argmaxFirst_lt (l : List ℚ) (h : l ≠ []) : argmaxFirst l < l.length := by
  induction l with
  | nil => exact absurd rfl h
  | cons x xs ih =>
    rw [argmaxFirst]
    split
    · simp
    · next hall =>
      have hxs : xs ≠ [] := by rintro rfl; simp at hall
      have := ih hxs
      simp only [List.length_cons]
      omega

/-- The entry at the argmax dominates every entry of the list. -/
theorem argmaxFirst_le (l : List ℚ) :
    ∀ i, i < l.length → l.getD i 0 ≤ l.getD (argmaxFirst l) 0 := by
  induction l with
  | nil => intro i hi; simp at hi
  | cons x xs ih =>
    intro i hi
    rw [argmaxFirst]
    split
    · next hall =>
      rw [List.getD_cons_zero]
      match i with
      | 0 => rw [List.getD_cons_zero]
      | j + 1 =>
        rw [List.getD_cons_succ]
        have hj : j < xs.length := by simpa using hi
        have hmem : xs.getD j 0 ∈ xs := by
          rw [List.getD_eq_getElem xs 0 hj]; exact List.getElem_mem hj
        exact of_decide_eq_true ((List.all_eq_true.mp hall) _ hmem)
    · next hall =>
      rw [Nat.add_comm 1 (argmaxFirst xs), List.getD_cons_succ]
      match i with
      | 0 =>
        rw [List.getD_cons_zero]
        rw [List.all_eq_true] at hall
        push_neg at hall
        obtain ⟨y, hy, hyx⟩ := hall
        have hxy : x < y := by
          by_contra hc
          exact hyx (decide_eq_true (by exact not_lt.mp hc))
        obtain ⟨j, hj, rfl⟩ := List.mem_iff_getElem.mp hy
        have h1 : xs.getD j 0 ≤ xs.getD (argmaxFirst xs) 0 := ih j hj
        rw [List.getD_eq_getElem xs 0 hj] at h1
        exact le_of_lt (lt_of_lt_of_le hxy h1)
      | j + 1 =>
        rw [List.getD_cons_succ]
        exact ih j (by simpa using hi)

/-- There are always exactly 12 rotation scores. -/
theorem rotScores_length (pc p : List ℚ) : (rotScores pc p).length = 12 := by
  simp [rotScores]

/-- The `k`-th rotation score is the dot product with the `k`-th roll. -/
theorem rotScores_getD (pc p : List ℚ) (k : ℕ) (hk : k < 12) :
    (rotScores pc p).getD k 0 = dotQ (salNorm pc) (nproll p k) := by
  rw [List.getD_eq_getElem _ _ (by rw [rotScores_length]; exact hk)]
  simp [rotScores]

/-- The winning rotation index is a pitch class (0–11). -/
theorem bestRotation_fst_lt (pc p : List ℚ) : (bestRotation pc p).1 < 12 := by
  have h := argmaxFirst_lt (rotScores pc p) (by
    intro h
    have := rotScores_length pc p
    rw [h] at this
    simp at this)
  rw [rotScores_length] at h
  exact h

/-- The winning score is the score of the winning rotation. -/
theorem bestRotation_snd_eq (pc p : List ℚ) :
    (bestRotation pc p).2 = dotQ (salNorm pc) (nproll p (bestRotation pc p).1) := by
  have h := bestRotation_fst_lt pc p
  show (rotScores pc p).getD (argmaxFirst (rotScores pc p)) 0 = _
  exact rotScores_getD pc p _ h

/-- The winning score dominates all 12 rotation scores. -/
theorem bestRotation_le (pc p : List ℚ) (k : ℕ) (hk : k < 12) :
    dotQ (salNorm pc) (nproll p k) ≤ (bestRotation pc p).2 := by
  have h := argmaxFirst_le (rotScores pc p) k (by rw [rotScores_length]; exact hk)
  rw [rotScores_getD pc p k hk] at h
  exact h

/-- Every pitch class 0–11 has a name in the sharp-preferred table. -/
theorem keySharp_lookup (k : ℕ) (hk : k < 12) :
    ∃ nm, lookupD NUMBER_TO_KEY_SHARP k = some nm := by
  interval_cases k
  · exact ⟨"C", by decide⟩
  · exact ⟨"C#", by decide⟩
  · exact ⟨"D", by decide⟩
  · exact ⟨"D#", by decide⟩
  · exact ⟨"E", by decide⟩
  · exact ⟨"F", by decide⟩
  · exact ⟨"F#", by decide⟩
  · exact ⟨"G", by decide⟩
  · exact ⟨"G#", by decide⟩
  · exact ⟨"A", by decide⟩
  · exact ⟨"A#", by decide⟩
  · exact ⟨"B", by decide⟩

/-- On a non-zero salience vector with the major score at least the minor
score, the estimator returns the major triple. -/
theorem estimate_nonzero_major (pc : List ℚ) (h : pc.all (fun v => v == 0) = false)
    (hc : (bestRotation pc KRUMHANSL_MINOR).2 ≤ (bestRotation pc KRUMHANSL_MAJOR).2)
    (nm : String)
    (hnm : lookupD NUMBER_TO_KEY_SHARP (bestRotation pc KRUMHANSL_MAJOR).1 = some nm) :
    estimate_key_mode_krumhansl pc =
      [some (.num (bestRotation pc KRUMHANSL_MAJOR).1), some (.name nm),
       some (.name "major")] := by
  rw [estimate_key_mode_krumhansl, if_neg (by simp [h])]
  simp only [if_pos hc, hnm]

/-- On a non-zero salience vector with the minor score strictly greater, the
estimator returns the minor triple. -/
theorem estimate_nonzero_minor (pc : List ℚ) (h : pc.all (fun v => v == 0) = false)
    (hc : ¬ (bestRotation pc KRUMHANSL_MINOR).2 ≤ (bestRotation pc KRUMHANSL_MAJOR).2)
    (nm : String)
    (hnm : lookupD NUMBER_TO_KEY_SHARP (bestRotation pc KRUMHANSL_MINOR).1 = some nm) :
    estimate_key_mode_krumhansl pc =
      [some (.num (bestRotation pc KRUMHANSL_MINOR).1), some (.name nm),
       some (.name "minor")] := by
  rw [estimate_key_mode_krumhansl, if_neg (by simp [h])]
  simp only [if_neg hc, hnm]

/-- Python rounding lands within one half of the exact value. -/
theorem pyRound_close (q : ℚ) : |(pyRound q : ℚ) - q| ≤ 1/2 := by
  have h0 : (⌊q⌋ : ℚ) ≤ q := Int.floor_le q
  have h1 : q < ⌊q⌋ + 1 := Int.lt_floor_add_one q
  simp only [pyRound]
  split
  · rename_i h
    rw [abs_le]
    constructor <;> linarith
  · rename_i h
    have h2 : (1 : ℚ)/2 ≤ q - ⌊q⌋ := not_lt.mp h
    split
    · rename_i h'
      rw [abs_le]
      push_cast
      constructor <;> linarith
    · rename_i h'
      have h3 : q - (⌊q⌋ : ℚ) ≤ 1/2 := not_lt.mp h'
      split
      · rw [abs_le]
        constructor <;> linarith
      · rw [abs_le]
        push_cast
        constructor <;> linarith

/-! ## Claim theorems -/

/-- C1: the claim says a signal whose time-averaged chroma vector is
entirely zero makes `estimate_key_mode_krumhansl` return the fully-absent
triple. The code instead returns the two-element tuple `(None, None)` on
that branch (its own return annotation and its `except` branch use a
3-tuple, and both orchestrators unpack three values), so the result has
arity 2, not the all-absent triple of arity 3. -/
theorem C1_zero_chroma_returns_pair_not_triple :
    estimate_key_mode_krumhansl (List.replicate 12 0) = [none, none] ∧
    (estimate_key_mode_krumhansl (List.replicate 12 0)).length = 2 ∧
    (estimate_key_mode_krumhansl (List.replicate 12 0)).length ≠ 3 := by
  have h : estimate_key_mode_krumhansl (List.replicate 12 0) = [none, none] := by
    rw [estimate_key_mode_krumhansl, if_pos (by decide)]
  exact ⟨h, by rw [h]; rfl, by rw [h]; decide⟩

/-- C2: the sharp-preferred table maps key numbers 10, 3 and 8 to "A#",
"D#" and "G#"; `to_camelot` returns `none` for those names with mode
"major" (the table spells those major keys "Bb major", "Eb major",
"Ab major"), although the same names do resolve in minor, and the estimator
really does produce such an output (witnessed at a concrete salience
vector). -/
theorem C2_sharp_major_keys_missing_from_camelot :
    lookupD NUMBER_TO_KEY_SHARP 10 = some "A#" ∧
    lookupD NUMBER_TO_KEY_SHARP 3 = some "D#" ∧
    lookupD NUMBER_TO_KEY_SHARP 8 = some "G#" ∧
    to_camelot (some "A#") (some "major") = none ∧
    to_camelot (some "D#") (some "major") = none ∧
    to_camelot (some "G#") (some "major") = none ∧
    to_camelot (some "A#") (some "minor") = some "3A" ∧
    lookupD CAMELOT_TABLE "Bb major" = some "6B" ∧
    lookupD CAMELOT_TABLE "Eb major" = some "5B" ∧
    lookupD CAMELOT_TABLE "Ab major" = some "4B" ∧
    estimate_key_mode_krumhansl PC_ASHARP =
      [some (.num 10), some (.name "A#"), some (.name "major")] := by
  refine ⟨by decide, by decide, by decide, by decide, by decide, by decide,
    by decide, by decide, by decide, by decide, ?_⟩
  norm_num [estimate_key_mode_krumhansl, bestRotation, rotScores, dotQ, salNorm,
    maxOf, argmaxFirst, nproll, KRUMHANSL_MAJOR, KRUMHANSL_MINOR, PC_ASHARP,
    List.range_succ, NUMBER_TO_KEY_SHARP, KEY_TO_NUMBER, dictInsert, lookupD]

/-- C3: the from-query source selection fails with 404 exactly when the
direct `audio_url` is absent (falsy) and both the Deezer and the Apple
preview lookups return no preview; in every other case a source is chosen
and no 404 is produced. -/
theorem C3_not_found_iff_no_source (audio_url : Option String)
    (dz ap : Option Preview) :
    choose_audio_source audio_url dz ap = .error 404 ↔
      pyTruthyStr audio_url = false ∧ dz = none ∧ ap = none := by
  cases audio_url with
  | none =>
    cases dz with
    | some p => simp [choose_audio_source, resolvePreviews, pyTruthyStr]
    | none => cases ap <;> simp [choose_audio_source, resolvePreviews, pyTruthyStr]
  | some s =>
    by_cases hs : s = ""
    · subst hs
      cases dz with
      | some p => simp [choose_audio_source, resolvePreviews, pyTruthyStr]
      | none => cases ap <;> simp [choose_audio_source, resolvePreviews, pyTruthyStr]
    · simp [choose_audio_source, resolvePreviews, pyTruthyStr, hs]

/-- C3 witness: with no `audio_url` and both catalogs empty, the selection
is exactly the 404 error. -/
theorem C3_not_found_iff_no_source_witness :
    choose_audio_source none none none = .error 404 :=
  (C3_not_found_iff_no_source none none none).mpr ⟨rfl, rfl, rfl⟩

/-- C4: on every non-zero salience vector, each profile's best score is the
attained maximum over the 12 cyclic rotations, the winning rotation index is
a pitch class below 12, the mode comparison is `minor ≤ major → major`
(ties favour major), and the returned triple carries the winning index and
its name from the sharp-preferred table. -/
theorem C4_krumhansl_argmax_and_mode_rule (pc : List ℚ)
    (h : pc.all (fun v => v == 0) = false) :
    ((bestRotation pc KRUMHANSL_MAJOR).1 < 12 ∧
     (bestRotation pc KRUMHANSL_MAJOR).2 =
       dotQ (salNorm pc) (nproll KRUMHANSL_MAJOR (bestRotation pc KRUMHANSL_MAJOR).1) ∧
     ∀ k, k < 12 → dotQ (salNorm pc) (nproll KRUMHANSL_MAJOR k) ≤
       (bestRotation pc KRUMHANSL_MAJOR).2) ∧
    ((bestRotation pc KRUMHANSL_MINOR).1 < 12 ∧
     (bestRotation pc KRUMHANSL_MINOR).2 =
       dotQ (salNorm pc) (nproll KRUMHANSL_MINOR (bestRotation pc KRUMHANSL_MINOR).1) ∧
     ∀ k, k < 12 → dotQ (salNorm pc) (nproll KRUMHANSL_MINOR k) ≤
       (bestRotation pc KRUMHANSL_MINOR).2) ∧
    ((bestRotation pc KRUMHANSL_MINOR).2 ≤ (bestRotation pc KRUMHANSL_MAJOR).2 →
      ∃ nm, lookupD NUMBER_TO_KEY_SHARP (bestRotation pc KRUMHANSL_MAJOR).1 = some nm ∧
        estimate_key_mode_krumhansl pc =
          [some (.num (bestRotation pc KRUMHANSL_MAJOR).1), some (.name nm),
           some (.name "major")]) ∧
    ((bestRotation pc KRUMHANSL_MAJOR).2 < (bestRotation pc KRUMHANSL_MINOR).2 →
      ∃ nm, lookupD NUMBER_TO_KEY_SHARP (bestRotation pc KRUMHANSL_MINOR).1 = some nm ∧
        estimate_key_mode_krumhansl pc =
          [some (.num (bestRotation pc KRUMHANSL_MINOR).1), some (.name nm),
           some (.name "minor")]) := by
  refine ⟨⟨bestRotation_fst_lt pc _, bestRotation_snd_eq pc _,
           fun k hk => bestRotation_le pc _ k hk⟩,
          ⟨bestRotation_fst_lt pc _, bestRotation_snd_eq pc _,
           fun k hk => bestRotation_le pc _ k hk⟩, ?_, ?_⟩
  · intro hc
    obtain ⟨nm, hnm⟩ := keySharp_lookup _ (bestRotation_fst_lt pc KRUMHANSL_MAJOR)
    exact ⟨nm, hnm, estimate_nonzero_major pc h hc nm hnm⟩
  · intro hc
    obtain ⟨nm, hnm⟩ := keySharp_lookup _ (bestRotation_fst_lt pc KRUMHANSL_MINOR)
    exact ⟨nm, hnm, estimate_nonzero_minor pc h (not_le.mpr hc) nm hnm⟩

/-- C4 witness: at the concrete salience vector with all weight on pitch
class 0, the estimator returns C major, via the theorem's major branch. -/
theorem C4_krumhansl_argmax_and_mode_rule_witness :
    estimate_key_mode_krumhansl [1, 0, 0, 0, 0, 0, 0, 0, 0, 0, 0, 0] =
      [some (.num 0), some (.name "C"), some (.name "major")] := by
  obtain ⟨nm, hnm, he⟩ :=
    (C4_krumhansl_argmax_and_mode_rule [1, 0, 0, 0, 0, 0, 0, 0, 0, 0, 0, 0]
      (by decide)).2.2.1
      (by norm_num [bestRotation, rotScores, dotQ, salNorm, maxOf, argmaxFirst,
            nproll, KRUMHANSL_MAJOR, KRUMHANSL_MINOR, List.range_succ])
  have hb : (bestRotation [1, 0, 0, 0, 0, 0, 0, 0, 0, 0, 0, 0] KRUMHANSL_MAJOR).1 = 0 := by
    norm_num [bestRotation, rotScores, dotQ, salNorm, maxOf, argmaxFirst, nproll,
      KRUMHANSL_MAJOR, List.range_succ]
  rw [hb] at hnm he
  have hC : lookupD NUMBER_TO_KEY_SHARP 0 = some "C" := by decide
  rw [hC] at hnm
  cases hnm
  exact he

/-- C5: the configured target is 22050 Hz; whenever the loader returns
normally the reported rate equals the target regardless of the source rate;
and a multi-channel primary decode is collapsed to mono by averaging across
channels (before any resampling). -/
theorem C5_loader_target_rate_and_mono_collapse :
    TARGET_SR = 22050 ∧
    (∀ dec fb res y sr, load_audio_from_bytes dec fb res TARGET_SR = some (y, sr) →
      sr = TARGET_SR) ∧
    (∀ rows sr fb res, load_audio_from_bytes (some (.multi rows, sr)) fb res TARGET_SR =
      some ((if sr = TARGET_SR then rows.map meanQ
             else res (rows.map meanQ) sr TARGET_SR), TARGET_SR)) := by
  refine ⟨rfl, ?_, ?_⟩
  · intro dec fb res y sr h
    rcases dec with _ | ⟨out, sr0⟩
    · rcases fb with _ | ⟨y0, sr0⟩
      · simp [load_audio_from_bytes] at h
      · simp only [load_audio_from_bytes] at h
        split at h
        · cases h; rfl
        · next hne => cases h; exact not_ne_iff.mp hne
    · simp only [load_audio_from_bytes] at h
      split at h
      · cases h; rfl
      · next hne => cases h; exact not_ne_iff.mp hne
  · intro rows sr fb res
    by_cases hs : sr = TARGET_SR
    · simp [load_audio_from_bytes, collapseMono, hs]
    · simp [load_audio_from_bytes, collapseMono, hs]

/-- C5 witness: a concrete 2-channel decode at 22050 Hz is averaged to mono
and reported at the target rate, via the theorem. -/
theorem C5_loader_target_rate_and_mono_collapse_witness :
    load_audio_from_bytes (some (.multi [[1, 3], [2, 4]], 22050)) none
      (fun v _ _ => v) TARGET_SR = some ([2, 3], 22050) ∧ (22050 : ℕ) = TARGET_SR := by
  have h : load_audio_from_bytes (some (.multi [[1, 3], [2, 4]], 22050)) none
      (fun v _ _ => v) TARGET_SR = some ([2, 3], 22050) := by
    norm_num [load_audio_from_bytes, collapseMono, meanQ, TARGET_SR]
  exact ⟨h, C5_loader_target_rate_and_mono_collapse.2.1 _ _ _ _ _ h⟩

/-- C6: the energy heuristic equals the RMS-to-decibel value linearly
rescaled from the −60..0 dB window and clamped, and its output lies in
[0, 1] for every input signal (the all-zero signal included, as an instance
of the universal statement). -/
theorem C6_energy_formula_and_clamp (y : List ℝ) :
    compute_energy y =
      max 0 (min 1 ((20 * Real.logb 10
        (Real.sqrt (meanR (y.map (fun v => v ^ 2))) + 1/1000000000000) + 60) / 60)) ∧
    0 ≤ compute_energy y ∧ compute_energy y ≤ 1 :=
  ⟨rfl, le_max_left _ _, max_le zero_le_one (min_le_left _ _)⟩

/-- C7: for a signal of N samples at rate R > 0, `compute_duration_ms`
returns exactly the Python rounding of N / R * 1000, which is within one
half of the exact rational value. -/
theorem C7_duration_rounding (y : List ℚ) (sr : ℕ) (h : 0 < sr) :
    compute_duration_ms y sr = pyRound ((y.length : ℚ) / (sr : ℚ) * 1000) ∧
    |(compute_duration_ms y sr : ℚ) - (y.length : ℚ) / (sr : ℚ) * 1000| ≤ 1/2 :=
  ⟨rfl, pyRound_close _⟩

/-- C7 witness: three samples at 2 Hz last exactly 1500 ms. -/
theorem C7_duration_rounding_witness :
    (0 : ℕ) < 2 ∧ compute_duration_ms [0, 0, 0] 2 = 1500 := by
  refine ⟨by norm_num, ?_⟩
  rw [(C7_duration_rounding [0, 0, 0] 2 (by norm_num)).1]
  have h3 : ((([0, 0, 0] : List ℚ).length : ℚ)) / ((2 : ℕ) : ℚ) * 1000 = 1500 := by
    norm_num
  rw [h3, pyRound]
  norm_num

/-- C8: for every internal feature mapping the shaper emits exactly the 19
documented field names (in schema order, so no key is ever omitted — absent
values surface as explicit nulls), the `type` field is the constant
"audio_features", and both orchestrator payloads make `time_signature`
null. -/
theorem C8_shaper_schema_and_constants :
    (∀ p : List (String × PyVal), (to_spotify_like p).map Prod.fst = SPEC_FIELDS) ∧
    (∀ p, dictGet (to_spotify_like p) "type" = PyVal.str "audio_features") ∧
    (∀ spid dm t l e kn knm mn cam notes,
      dictGet (to_spotify_like (payload_from_url spid dm t l e kn knm mn cam notes))
        "time_signature" = PyVal.null) ∧
    (∀ dm t l e kn knm mn cam,
      dictGet (to_spotify_like (payload_from_upload dm t l e kn knm mn cam))
        "time_signature" = PyVal.null) :=
  ⟨fun _ => rfl, fun _ => rfl, fun _ _ _ _ _ _ _ _ _ _ => rfl,
   fun _ _ _ _ _ _ _ _ => rfl⟩

/-- C9 counterexample: the claim calls every table entry a "2-character
code", but the D-major entry is "10B", which has three characters (as do
the five other wheel positions numbered 10–12). -/
theorem C9_counterexample_three_char_code :
    to_camelot (some "D") (some "major") = some "10B" ∧ ("10B").length ≠ 2 :=
  ⟨by decide, by decide⟩

/-- C9 (amended): `to_camelot` returns the documented code — two or three
characters, a wheel number 1–12 plus a letter — for every pair present in
the fixed 24-entry table, and returns absent whenever either input is
absent or the concatenation "key_name mode_name" is not a key of the
table. -/
theorem C9_camelot_lookup_amended :
    CAMELOT_TABLE.length = 24 ∧
    (∀ kn mn c, kn ≠ "" → mn ≠ "" → lookupD CAMELOT_TABLE (kn ++ " " ++ mn) = some c →
      to_camelot (some kn) (some mn) = some c ∧ (c.length = 2 ∨ c.length = 3)) ∧
    (∀ m, to_camelot none m = none) ∧
    (∀ k, to_camelot k none = none) ∧
    (∀ kn mn, lookupD CAMELOT_TABLE (kn ++ " " ++ mn) = none →
      to_camelot (some kn) (some mn) = none) := by
  refine ⟨rfl, ?_, ?_, ?_, ?_⟩
  · intro kn mn c hk hm hl
    constructor
    · show (if kn = "" ∨ mn = "" then none
            else lookupD CAMELOT_TABLE (kn ++ " " ++ mn)) = some c
      rw [if_neg (not_or.mpr ⟨hk, hm⟩)]
      exact hl
    · have hall : ∀ p ∈ CAMELOT_TABLE, p.2.length = 2 ∨ p.2.length = 3 := by decide
      exact hall _ (lookupD_mem _ _ _ hl)
  · intro m; cases m <;> rfl
  · intro k; cases k <;> rfl
  · intro kn mn hl
    show (if kn = "" ∨ mn = "" then none
          else lookupD CAMELOT_TABLE (kn ++ " " ++ mn)) = none
    split
    · rfl
    · exact hl

/-- C9 witness: the C-major entry resolves to its documented code "8B". -/
theorem C9_camelot_lookup_amended_witness :
    to_camelot (some "C") (some "major") = some "8B" ∧
    (("8B").length = 2 ∨ ("8B").length = 3) :=
  C9_camelot_lookup_amended.2.1 "C" "major" "8B" (by decide) (by decide) (by decide)

/-- C10: the byte-signature guesser is total with range contained in
the two-element set of extensions; an ID3 or MPEG-sync signature selects
".mp3"; otherwise an "ftyp" occurrence in the 16-byte head selects ".m4a";
and every remaining buffer defaults to ".mp3". -/
theorem C10_magic_guess_total (b : List ℕ) :
    (guess_ext_from_magic b = ".mp3" ∨ guess_ext_from_magic b = ".m4a") ∧
    (mp3Sig (b.take 16) = true → guess_ext_from_magic b = ".mp3") ∧
    (mp3Sig (b.take 16) = false → bytesHasInfix FTYPSIG (b.take 16) = true →
      guess_ext_from_magic b = ".m4a") ∧
    (mp3Sig (b.take 16) = false → bytesHasInfix FTYPSIG (b.take 16) = false →
      guess_ext_from_magic b = ".mp3") := by
  simp only [guess_ext_from_magic]
  by_cases h1 : mp3Sig (b.take 16) = true
  · simp [h1]
  · have h1f : mp3Sig (b.take 16) = false := by simpa using h1
    by_cases h2 : bytesHasInfix FTYPSIG (b.take 16) = true
    · simp [h1f, h2]
    · have h2f : bytesHasInfix FTYPSIG (b.take 16) = false := by simpa using h2
      simp [h1f, h2f]

/-- C10 witness: a buffer matching no known signature defaults to ".mp3". -/
theorem C10_magic_guess_total_witness : guess_ext_from_magic [0, 1, 2] = ".mp3" :=
  (C10_magic_guess_total [0, 1, 2]).2.2.2 (by decide) (by decide)
